import Mathlib

/-!
Verification development for the Private-DAO-Voting repository.

Shallow embedding of:
1. the `DAOVoting` Solidity contract (contracts/DAOVoting.sol), as a pure
   state-transition function per entrypoint, with `Except` modelling the
   EVM revert (a revert rolls back every write, so an error result carries
   no state);
2. the off-chain CLI tool (cli/vote.js): its `MerkleTree` class, the
   `generate-member` command, and the witness assembly of the `cast`
   command;
3. the Groth16 constraint system `Vote(20)` (circuits/vote.circom), as a
   satisfiability predicate over the BN254 scalar field.

Solidity `uint256` values are modelled as `Nat`; Solidity 0.8 checked
arithmetic reverts (Panic 0x11) when a sum reaches `2 ^ 256`, which the
embedding makes explicit at every addition the contract performs.
Solidity mappings are total functions with the zero value as default.
-/

/-- Solidity 0.8 checked arithmetic bound: a `uint256` addition whose
mathematical result is not `< 2 ^ 256` reverts with Panic 0x11. -/
def U256 : Nat := 2 ^ 256

/-- Storage of one proposal (DAOVoting.sol, `struct Proposal`, lines 16-24).
The `mapping(uint256 => bool) nullifiers` is a total function defaulting to
`false`. -/
structure Proposal where
  description : String
  deadline : Nat
  yesVotes : Nat
  noVotes : Nat
  abstainVotes : Nat
  executed : Bool
  nullifiers : Nat → Bool

/-- A zero-initialized proposal storage slot. -/
def emptyProposal : Proposal :=
  { description := ""
    deadline := 0
    yesVotes := 0
    noVotes := 0
    abstainVotes := 0
    executed := false
    nullifiers := fun _ => false }

/-- Mutable storage of the `DAOVoting` contract (DAOVoting.sol, lines 26-29).
`verifier` and `merkleRoot` are immutable and therefore passed as plain
parameters to the operations that read them. -/
structure RegistryState where
  proposalCount : Nat
  proposals : Nat → Proposal
  usedNullifiers : Nat → Bool

/-- The Groth16 proof tuple `(a, b, c)` as the contract receives it:
`uint[2] a`, `uint[2][2] b`, `uint[2] c`. -/
structure Groth16Proof where
  a : Nat × Nat
  b : (Nat × Nat) × (Nat × Nat)
  c : Nat × Nat

/-- The custom errors declared by DAOVoting.sol (lines 36-41), plus `Panic`
for a Solidity 0.8 checked-arithmetic overflow. -/
inductive ContractError where
  | InvalidProof
  | ProposalDoesNotExist
  | VotingEnded
  | NullifierAlreadyUsed
  | InvalidVoteValue
  | ProposalAlreadyExecuted
  | Panic
deriving DecidableEq, Repr

/-- Contract state right after deployment: no proposals, empty mappings. -/
def initialState : RegistryState :=
  { proposalCount := 0
    proposals := fun _ => emptyProposal
    usedNullifiers := fun _ => false }

/-- Function `createProposal` (DAOVoting.sol, lines 48-56): allocates id
`proposalCount++`, stores the description and `deadline = block.timestamp +
duration` in the (previously untouched) slot, and returns the id.  The two
checked additions can overflow, hence the `Panic` branches. -/
def createProposal (s : RegistryState) (timestamp : Nat) (description : String)
    (duration : Nat) : Except ContractError (Nat × RegistryState) :=
  if s.proposalCount + 1 < U256 then
    if timestamp + duration < U256 then
      Except.ok (s.proposalCount,
        { s with
          proposalCount := s.proposalCount + 1
          proposals := fun i =>
            if i = s.proposalCount then
              { s.proposals i with
                description := description
                deadline := timestamp + duration }
            else s.proposals i })
    else Except.error ContractError.Panic
  else Except.error ContractError.Panic

/-- Marking `proposal.nullifiers[nullifierHash] = true`
(DAOVoting.sol, line 84). -/
def markNullifier (p : Proposal) (nullifierHash : Nat) : Proposal :=
  { p with nullifiers := fun n => if n = nullifierHash then true else p.nullifiers n }

/-- The state written by a successful `vote`: the updated proposal is stored
at `proposalId` and `usedNullifiers[nullifierHash] = true`
(DAOVoting.sol, lines 84-85). -/
def writeVote (s : RegistryState) (proposalId nullifierHash : Nat)
    (p2 : Proposal) : RegistryState :=
  { s with
    proposals := fun i => if i = proposalId then p2 else s.proposals i
    usedNullifiers := fun n => if n = nullifierHash then true else s.usedNullifiers n }

/-- Function `vote` (DAOVoting.sol, lines 58-98).  The four cheap checks come first in
source order; then the public inputs `[merkleRoot, nullifierHash, proposalId,
voteValue]` are assembled in that exact order and the verifier is consulted;
only then are the nullifier marked and one tally incremented (0 = no,
1 = yes, otherwise — necessarily 2 — abstain).  A tally increment is a
checked addition. -/
def vote (verifier : Groth16Proof → List Nat → Bool) (merkleRoot : Nat)
    (s : RegistryState) (timestamp proposalId nullifierHash voteValue : Nat)
    (prf : Groth16Proof) : Except ContractError RegistryState :=
  if s.proposalCount ≤ proposalId then Except.error ContractError.ProposalDoesNotExist
  else if 2 < voteValue then Except.error ContractError.InvalidVoteValue
  else if (s.proposals proposalId).deadline < timestamp then
    Except.error ContractError.VotingEnded
  else if (s.proposals proposalId).nullifiers nullifierHash = true then
    Except.error ContractError.NullifierAlreadyUsed
  else if verifier prf [merkleRoot, nullifierHash, proposalId, voteValue] = false then
    Except.error ContractError.InvalidProof
  else
    if voteValue = 0 then
      if (s.proposals proposalId).noVotes + 1 < U256 then
        Except.ok (writeVote s proposalId nullifierHash
          { markNullifier (s.proposals proposalId) nullifierHash with
            noVotes := (s.proposals proposalId).noVotes + 1 })
      else Except.error ContractError.Panic
    else if voteValue = 1 then
      if (s.proposals proposalId).yesVotes + 1 < U256 then
        Except.ok (writeVote s proposalId nullifierHash
          { markNullifier (s.proposals proposalId) nullifierHash with
            yesVotes := (s.proposals proposalId).yesVotes + 1 })
      else Except.error ContractError.Panic
    else
      if (s.proposals proposalId).abstainVotes + 1 < U256 then
        Except.ok (writeVote s proposalId nullifierHash
          { markNullifier (s.proposals proposalId) nullifierHash with
            abstainVotes := (s.proposals proposalId).abstainVotes + 1 })
      else Except.error ContractError.Panic

/-- Function `getProposalVotes` (DAOVoting.sol, lines 100-108): pure read returning
`(yes, no, abstain)`. -/
def getProposalVotes (s : RegistryState) (proposalId : Nat) :
    Except ContractError (Nat × Nat × Nat) :=
  if s.proposalCount ≤ proposalId then Except.error ContractError.ProposalDoesNotExist
  else
    Except.ok ((s.proposals proposalId).yesVotes,
      (s.proposals proposalId).noVotes,
      (s.proposals proposalId).abstainVotes)

/-- Function `executeProposal` (DAOVoting.sol, lines 110-122).  Note that the
not-yet-closed check at line 115 reverts with the very same `VotingEnded`
error that `vote` uses at line 70. -/
def executeProposal (s : RegistryState) (timestamp proposalId : Nat) :
    Except ContractError RegistryState :=
  if s.proposalCount ≤ proposalId then Except.error ContractError.ProposalDoesNotExist
  else if (s.proposals proposalId).executed = true then
    Except.error ContractError.ProposalAlreadyExecuted
  else if timestamp ≤ (s.proposals proposalId).deadline then
    Except.error ContractError.VotingEnded
  else
    Except.ok
      { s with
        proposals := fun i =>
          if i = proposalId then { s.proposals i with executed := true }
          else s.proposals i }

/-! Helper lemmas about `vote`. -/

/-- An unknown proposal id makes `vote` revert first, for any verifier. -/
theorem vote_err_notFound (verifier : Groth16Proof → List Nat → Bool)
    (merkleRoot : Nat) (s : RegistryState)
    (t proposalId nullifierHash voteValue : Nat) (prf : Groth16Proof)
    (hge : s.proposalCount ≤ proposalId) :
    vote verifier merkleRoot s t proposalId nullifierHash voteValue prf
      = Except.error ContractError.ProposalDoesNotExist := by
  unfold vote
  rw [if_pos hge]

/-- An out-of-range vote value makes `vote` revert second, for any verifier. -/
theorem vote_err_invalidValue (verifier : Groth16Proof → List Nat → Bool)
    (merkleRoot : Nat) (s : RegistryState)
    (t proposalId nullifierHash voteValue : Nat) (prf : Groth16Proof)
    (hlt : proposalId < s.proposalCount) (hv : 2 < voteValue) :
    vote verifier merkleRoot s t proposalId nullifierHash voteValue prf
      = Except.error ContractError.InvalidVoteValue := by
  unfold vote
  rw [if_neg (by omega), if_pos hv]

/-- A passed deadline makes `vote` revert third, for any verifier. -/
theorem vote_err_ended (verifier : Groth16Proof → List Nat → Bool)
    (merkleRoot : Nat) (s : RegistryState)
    (t proposalId nullifierHash voteValue : Nat) (prf : Groth16Proof)
    (hlt : proposalId < s.proposalCount) (hv : voteValue ≤ 2)
    (ht : (s.proposals proposalId).deadline < t) :
    vote verifier merkleRoot s t proposalId nullifierHash voteValue prf
      = Except.error ContractError.VotingEnded := by
  unfold vote
  rw [if_neg (by omega), if_neg (by omega), if_pos ht]

/-- A consumed nullifier makes `vote` revert fourth, for any verifier. -/
theorem vote_err_nullifierUsed (verifier : Groth16Proof → List Nat → Bool)
    (merkleRoot : Nat) (s : RegistryState)
    (t proposalId nullifierHash voteValue : Nat) (prf : Groth16Proof)
    (hlt : proposalId < s.proposalCount) (hv : voteValue ≤ 2)
    (ht : t ≤ (s.proposals proposalId).deadline)
    (hn : (s.proposals proposalId).nullifiers nullifierHash = true) :
    vote verifier merkleRoot s t proposalId nullifierHash voteValue prf
      = Except.error ContractError.NullifierAlreadyUsed := by
  unfold vote
  rw [if_neg (by omega), if_neg (by omega), if_neg (by omega), if_pos hn]

/-- When the four cheap checks pass, a rejecting verifier yields
`InvalidProof`. -/
theorem vote_err_invalidProof (verifier : Groth16Proof → List Nat → Bool)
    (merkleRoot : Nat) (s : RegistryState)
    (t proposalId nullifierHash voteValue : Nat) (prf : Groth16Proof)
    (hlt : proposalId < s.proposalCount) (hv : voteValue ≤ 2)
    (ht : t ≤ (s.proposals proposalId).deadline)
    (hn : (s.proposals proposalId).nullifiers nullifierHash = false)
    (hvf : verifier prf [merkleRoot, nullifierHash, proposalId, voteValue] = false) :
    vote verifier merkleRoot s t proposalId nullifierHash voteValue prf
      = Except.error ContractError.InvalidProof := by
  unfold vote
  rw [if_neg (by omega), if_neg (by omega), if_neg (by omega),
    if_neg (by simp [hn]), if_pos hvf]

/-- When all checks pass and the verifier accepts, `vote` either commits a
state or panics on a tally overflow. -/
theorem vote_ok_or_panic (verifier : Groth16Proof → List Nat → Bool)
    (merkleRoot : Nat) (s : RegistryState)
    (t proposalId nullifierHash voteValue : Nat) (prf : Groth16Proof)
    (hlt : proposalId < s.proposalCount) (hv : voteValue ≤ 2)
    (ht : t ≤ (s.proposals proposalId).deadline)
    (hn : (s.proposals proposalId).nullifiers nullifierHash = false)
    (hvf : verifier prf [merkleRoot, nullifierHash, proposalId, voteValue] = true) :
    (∃ s1, vote verifier merkleRoot s t proposalId nullifierHash voteValue prf
        = Except.ok s1) ∨
    vote verifier merkleRoot s t proposalId nullifierHash voteValue prf
      = Except.error ContractError.Panic := by
  unfold vote
  rw [if_neg (by omega), if_neg (by omega), if_neg (by omega),
    if_neg (by simp [hn]), if_neg (by simp [hvf])]
  by_cases hv0 : voteValue = 0
  · rw [if_pos hv0]
    by_cases hc : (s.proposals proposalId).noVotes + 1 < U256
    · rw [if_pos hc]; exact Or.inl ⟨_, rfl⟩
    · rw [if_neg hc]; exact Or.inr rfl
  · rw [if_neg hv0]
    by_cases hv1 : voteValue = 1
    · rw [if_pos hv1]
      by_cases hc : (s.proposals proposalId).yesVotes + 1 < U256
      · rw [if_pos hc]; exact Or.inl ⟨_, rfl⟩
      · rw [if_neg hc]; exact Or.inr rfl
    · rw [if_neg hv1]
      by_cases hc : (s.proposals proposalId).abstainVotes + 1 < U256
      · rw [if_pos hc]; exact Or.inl ⟨_, rfl⟩
      · rw [if_neg hc]; exact Or.inr rfl

/-- Full inversion of a successful `vote`: all guards passed and the
resulting state is the committed write, described field by field. -/
theorem vote_ok_shape (verifier : Groth16Proof → List Nat → Bool)
    (merkleRoot : Nat) (s : RegistryState)
    (t proposalId nullifierHash voteValue : Nat) (prf : Groth16Proof)
    (s1 : RegistryState)
    (hok : vote verifier merkleRoot s t proposalId nullifierHash voteValue prf
      = Except.ok s1) :
    proposalId < s.proposalCount ∧ voteValue ≤ 2 ∧
    t ≤ (s.proposals proposalId).deadline ∧
    (s.proposals proposalId).nullifiers nullifierHash = false ∧
    verifier prf [merkleRoot, nullifierHash, proposalId, voteValue] = true ∧
    s1.proposalCount = s.proposalCount ∧
    (s1.usedNullifiers
      = fun n => if n = nullifierHash then true else s.usedNullifiers n) ∧
    (∀ i, i ≠ proposalId → s1.proposals i = s.proposals i) ∧
    (s1.proposals proposalId).description = (s.proposals proposalId).description ∧
    (s1.proposals proposalId).deadline = (s.proposals proposalId).deadline ∧
    (s1.proposals proposalId).executed = (s.proposals proposalId).executed ∧
    (s1.proposals proposalId).nullifiers nullifierHash = true ∧
    (∀ n, n ≠ nullifierHash →
      (s1.proposals proposalId).nullifiers n = (s.proposals proposalId).nullifiers n) ∧
    (s1.proposals proposalId).noVotes
      = (s.proposals proposalId).noVotes + (if voteValue = 0 then 1 else 0) ∧
    (s1.proposals proposalId).yesVotes
      = (s.proposals proposalId).yesVotes + (if voteValue = 1 then 1 else 0) ∧
    (s1.proposals proposalId).abstainVotes
      = (s.proposals proposalId).abstainVotes + (if voteValue = 2 then 1 else 0) := by
  unfold vote at hok
  split_ifs at hok with hge hv ht hn hvf hv0 hc0 hv1 hc1 hc2 <;>
    try exact Except.noConfusion hok
  · injection hok with hs1
    subst hs1
    refine ⟨by omega, by omega, by omega, by simpa using hn, by simpa using hvf,
      rfl, rfl, ?_, ?_, ?_, ?_, ?_, ?_, ?_, ?_, ?_⟩ <;>
      subst hv0 <;>
      simp [writeVote, markNullifier]
    · intro i hi
      simp [hi]
    · intro n hn2
      simp [hn2]
  · injection hok with hs1
    subst hs1
    refine ⟨by omega, by omega, by omega, by simpa using hn, by simpa using hvf,
      rfl, rfl, ?_, ?_, ?_, ?_, ?_, ?_, ?_, ?_, ?_⟩ <;>
      subst hv1 <;>
      simp [writeVote, markNullifier, hv0]
    · intro i hi
      simp [hi]
    · intro n hn2
      simp [hn2]
  · injection hok with hs1
    subst hs1
    have hv2 : voteValue = 2 := by omega
    refine ⟨by omega, by omega, by omega, by simpa using hn, by simpa using hvf,
      rfl, rfl, ?_, ?_, ?_, ?_, ?_, ?_, ?_, ?_, ?_⟩ <;>
      subst hv2 <;>
      simp [writeVote, markNullifier]
    · intro i hi
      simp [hi]
    · intro n hn2
      simp [hn2]

/-- Complete classification of a `vote` call by which guard fires. -/
theorem vote_classify (verifier : Groth16Proof → List Nat → Bool)
    (merkleRoot : Nat) (s : RegistryState)
    (t proposalId nullifierHash voteValue : Nat) (prf : Groth16Proof) :
    (s.proposalCount ≤ proposalId ∧
      vote verifier merkleRoot s t proposalId nullifierHash voteValue prf
        = Except.error ContractError.ProposalDoesNotExist) ∨
    (proposalId < s.proposalCount ∧ 2 < voteValue ∧
      vote verifier merkleRoot s t proposalId nullifierHash voteValue prf
        = Except.error ContractError.InvalidVoteValue) ∨
    (proposalId < s.proposalCount ∧ voteValue ≤ 2 ∧
      (s.proposals proposalId).deadline < t ∧
      vote verifier merkleRoot s t proposalId nullifierHash voteValue prf
        = Except.error ContractError.VotingEnded) ∨
    (proposalId < s.proposalCount ∧ voteValue ≤ 2 ∧
      t ≤ (s.proposals proposalId).deadline ∧
      (s.proposals proposalId).nullifiers nullifierHash = true ∧
      vote verifier merkleRoot s t proposalId nullifierHash voteValue prf
        = Except.error ContractError.NullifierAlreadyUsed) ∨
    (proposalId < s.proposalCount ∧ voteValue ≤ 2 ∧
      t ≤ (s.proposals proposalId).deadline ∧
      (s.proposals proposalId).nullifiers nullifierHash = false ∧
      verifier prf [merkleRoot, nullifierHash, proposalId, voteValue] = false ∧
      vote verifier merkleRoot s t proposalId nullifierHash voteValue prf
        = Except.error ContractError.InvalidProof) ∨
    (proposalId < s.proposalCount ∧ voteValue ≤ 2 ∧
      t ≤ (s.proposals proposalId).deadline ∧
      (s.proposals proposalId).nullifiers nullifierHash = false ∧
      verifier prf [merkleRoot, nullifierHash, proposalId, voteValue] = true ∧
      ((∃ s1, vote verifier merkleRoot s t proposalId nullifierHash voteValue prf
          = Except.ok s1) ∨
        vote verifier merkleRoot s t proposalId nullifierHash voteValue prf
          = Except.error ContractError.Panic)) := by
  by_cases hge : s.proposalCount ≤ proposalId
  · exact Or.inl ⟨hge, vote_err_notFound _ _ _ _ _ _ _ _ hge⟩
  have hlt : proposalId < s.proposalCount := by omega
  by_cases hv : 2 < voteValue
  · exact Or.inr (Or.inl ⟨hlt, hv, vote_err_invalidValue _ _ _ _ _ _ _ _ hlt hv⟩)
  have hv2 : voteValue ≤ 2 := by omega
  by_cases ht : (s.proposals proposalId).deadline < t
  · exact Or.inr (Or.inr (Or.inl ⟨hlt, hv2, ht,
      vote_err_ended _ _ _ _ _ _ _ _ hlt hv2 ht⟩))
  have ht2 : t ≤ (s.proposals proposalId).deadline := by omega
  by_cases hn : (s.proposals proposalId).nullifiers nullifierHash = true
  · exact Or.inr (Or.inr (Or.inr (Or.inl ⟨hlt, hv2, ht2, hn,
      vote_err_nullifierUsed _ _ _ _ _ _ _ _ hlt hv2 ht2 hn⟩)))
  have hn2 : (s.proposals proposalId).nullifiers nullifierHash = false := by
    simpa using hn
  by_cases hvf : verifier prf [merkleRoot, nullifierHash, proposalId, voteValue] = false
  · exact Or.inr (Or.inr (Or.inr (Or.inr (Or.inl ⟨hlt, hv2, ht2, hn2, hvf,
      vote_err_invalidProof _ _ _ _ _ _ _ _ hlt hv2 ht2 hn2 hvf⟩))))
  have hvt : verifier prf [merkleRoot, nullifierHash, proposalId, voteValue] = true := by
    simpa using hvf
  exact Or.inr (Or.inr (Or.inr (Or.inr (Or.inr ⟨hlt, hv2, ht2, hn2, hvt,
    vote_ok_or_panic _ _ _ _ _ _ _ _ hlt hv2 ht2 hn2 hvt⟩))))

/-! Helper lemmas about `executeProposal` and `createProposal`. -/

/-- Complete classification of an `executeProposal` call. -/
theorem executeProposal_classify (s : RegistryState) (t proposalId : Nat) :
    (s.proposalCount ≤ proposalId ∧
      executeProposal s t proposalId
        = Except.error ContractError.ProposalDoesNotExist) ∨
    (proposalId < s.proposalCount ∧ (s.proposals proposalId).executed = true ∧
      executeProposal s t proposalId
        = Except.error ContractError.ProposalAlreadyExecuted) ∨
    (proposalId < s.proposalCount ∧ (s.proposals proposalId).executed = false ∧
      t ≤ (s.proposals proposalId).deadline ∧
      executeProposal s t proposalId
        = Except.error ContractError.VotingEnded) ∨
    (proposalId < s.proposalCount ∧ (s.proposals proposalId).executed = false ∧
      (s.proposals proposalId).deadline < t ∧
      executeProposal s t proposalId
        = Except.ok
          { s with
            proposals := fun i =>
              if i = proposalId then { s.proposals i with executed := true }
              else s.proposals i }) := by
  by_cases hge : s.proposalCount ≤ proposalId
  · exact Or.inl ⟨hge, by unfold executeProposal; rw [if_pos hge]⟩
  have hlt : proposalId < s.proposalCount := by omega
  by_cases hex : (s.proposals proposalId).executed = true
  · exact Or.inr (Or.inl ⟨hlt, hex, by
      unfold executeProposal
      rw [if_neg (by omega), if_pos hex]⟩)
  have hex2 : (s.proposals proposalId).executed = false := by simpa using hex
  by_cases ht : t ≤ (s.proposals proposalId).deadline
  · exact Or.inr (Or.inr (Or.inl ⟨hlt, hex2, ht, by
      unfold executeProposal
      rw [if_neg (by omega), if_neg hex, if_pos ht]⟩))
  exact Or.inr (Or.inr (Or.inr ⟨hlt, hex2, by omega, by
    unfold executeProposal
    rw [if_neg (by omega), if_neg hex, if_neg ht]⟩))

/-- Inversion of a successful `createProposal`. -/
theorem createProposal_ok_shape (s : RegistryState) (t : Nat)
    (description : String) (duration : Nat) (pid : Nat) (s1 : RegistryState)
    (hok : createProposal s t description duration = Except.ok (pid, s1)) :
    pid = s.proposalCount ∧
    s.proposalCount + 1 < U256 ∧ t + duration < U256 ∧
    s1.proposalCount = s.proposalCount + 1 ∧
    s1.usedNullifiers = s.usedNullifiers ∧
    (s1.proposals s.proposalCount
      = { s.proposals s.proposalCount with
          description := description
          deadline := t + duration }) ∧
    (∀ i, i ≠ s.proposalCount → s1.proposals i = s.proposals i) := by
  unfold createProposal at hok
  split_ifs at hok with hc hd <;> try exact Except.noConfusion hok
  injection hok with hpair
  rw [Prod.mk.injEq] at hpair
  obtain ⟨hpid, hs1⟩ := hpair
  subst hs1
  refine ⟨hpid.symm, hc, hd, rfl, rfl, by simp, ?_⟩
  intro i hi
  simp [hi]

/-- Inversion of a successful `executeProposal`: the guards passed and only
the `executed` flag of the target proposal was written. -/
theorem executeProposal_ok_shape (s : RegistryState) (t proposalId : Nat)
    (s1 : RegistryState)
    (hok : executeProposal s t proposalId = Except.ok s1) :
    proposalId < s.proposalCount ∧ (s.proposals proposalId).executed = false ∧
    (s.proposals proposalId).deadline < t ∧
    s1.proposalCount = s.proposalCount ∧
    s1.usedNullifiers = s.usedNullifiers ∧
    s1.proposals proposalId = { s.proposals proposalId with executed := true } ∧
    (∀ i, i ≠ proposalId → s1.proposals i = s.proposals i) := by
  unfold executeProposal at hok
  split_ifs at hok with h1 h2 h3 <;> try exact Except.noConfusion hok
  injection hok with hs1
  subst hs1
  exact ⟨by omega, by simpa using h2, by omega, rfl, rfl, by simp,
    fun i hi => by simp [hi]⟩

/-! Successful calls as a step relation, reachability, timed traces. -/

/-- One successful state-changing call of the contract instance
`(verifier, merkleRoot)` executed at timestamp `t`. -/
inductive Step (verifier : Groth16Proof → List Nat → Bool) (merkleRoot : Nat) :
    RegistryState → Nat → RegistryState → Prop where
  | create (s : RegistryState) (t : Nat) (description : String)
      (duration pid : Nat) (s1 : RegistryState)
      (h : createProposal s t description duration = Except.ok (pid, s1)) :
      Step verifier merkleRoot s t s1
  | castVote (s : RegistryState) (t proposalId nullifierHash voteValue : Nat)
      (prf : Groth16Proof) (s1 : RegistryState)
      (h : vote verifier merkleRoot s t proposalId nullifierHash voteValue prf
        = Except.ok s1) :
      Step verifier merkleRoot s t s1
  | execute (s : RegistryState) (t proposalId : Nat) (s1 : RegistryState)
      (h : executeProposal s t proposalId = Except.ok s1) :
      Step verifier merkleRoot s t s1

/-- States reachable from a fresh deployment through successful calls. -/
inductive Reachable (verifier : Groth16Proof → List Nat → Bool)
    (merkleRoot : Nat) : RegistryState → Prop where
  | init : Reachable verifier merkleRoot initialState
  | step {s : RegistryState} {t : Nat} {s1 : RegistryState}
      (hr : Reachable verifier merkleRoot s)
      (hs : Step verifier merkleRoot s t s1) :
      Reachable verifier merkleRoot s1

/-- A step never decreases the proposal count and never modifies the
deadline of an already-existing proposal. -/
theorem step_frame {verifier : Groth16Proof → List Nat → Bool}
    {merkleRoot : Nat} {s : RegistryState} {t : Nat} {s1 : RegistryState}
    (hstep : Step verifier merkleRoot s t s1) :
    s.proposalCount ≤ s1.proposalCount ∧
    (∀ pid, pid < s.proposalCount →
      (s1.proposals pid).deadline = (s.proposals pid).deadline) := by
  cases hstep with
  | create description duration pid s1 h =>
      obtain ⟨-, -, -, hcount, -, hat, hother⟩ :=
        createProposal_ok_shape _ _ _ _ _ _ h
      refine ⟨by omega, ?_⟩
      intro q hq
      by_cases hqe : q = s.proposalCount
      · omega
      · rw [hother q hqe]
  | castVote proposalId nullifierHash voteValue prf s1 h =>
      obtain ⟨-, -, -, -, -, hcount, -, hother, -, hdl, -⟩ :=
        vote_ok_shape _ _ _ _ _ _ _ _ _ h
      refine ⟨by omega, ?_⟩
      intro q hq
      by_cases hqe : q = proposalId
      · subst hqe; exact hdl
      · rw [hother q hqe]
  | execute proposalId s1 h =>
      obtain ⟨-, -, -, hcount, -, hat, hother⟩ :=
        executeProposal_ok_shape _ _ _ _ h
      refine ⟨by omega, ?_⟩
      intro q hq
      by_cases hqe : q = proposalId
      · subst hqe; rw [hat]
      · rw [hother q hqe]

/-- In any reachable state, the storage slots at ids at or above
`proposalCount` are still zero-initialized. -/
theorem reachable_fresh_slots {verifier : Groth16Proof → List Nat → Bool}
    {merkleRoot : Nat} {s : RegistryState}
    (h : Reachable verifier merkleRoot s) :
    ∀ i, s.proposalCount ≤ i → s.proposals i = emptyProposal := by
  induction h with
  | init => intro i _; rfl
  | step hr hstep ih =>
      cases hstep with
      | create description duration pid s1 hc =>
          obtain ⟨-, -, -, hcount, -, -, hother⟩ :=
            createProposal_ok_shape _ _ _ _ _ _ hc
          intro i hi
          rw [hcount] at hi
          rw [hother i (by omega)]
          exact ih i (by omega)
      | castVote proposalId nullifierHash voteValue prf s1 hc =>
          obtain ⟨hpid, -, -, -, -, hcount, -, hother, -⟩ :=
            vote_ok_shape _ _ _ _ _ _ _ _ _ hc
          intro i hi
          rw [hcount] at hi
          rw [hother i (by omega)]
          exact ih i hi
      | execute proposalId s1 hc =>
          obtain ⟨hpid, -, -, hcount, -, -, hother⟩ :=
            executeProposal_ok_shape _ _ _ _ hc
          intro i hi
          rw [hcount] at hi
          rw [hother i (by omega)]
          exact ih i hi

/-- Timed reachability: from configuration `(s, t)` the ledger reaches
`(s2, t2)` through successful calls, the host clock never decreasing. -/
inductive TimedReach (verifier : Groth16Proof → List Nat → Bool)
    (merkleRoot : Nat) : RegistryState → Nat → RegistryState → Nat → Prop where
  | refl (s : RegistryState) (t : Nat) : TimedReach verifier merkleRoot s t s t
  | advance {s : RegistryState} {t t2 : Nat} {s2 : RegistryState} {t3 : Nat}
      (hle : t ≤ t2) (htr : TimedReach verifier merkleRoot s t2 s2 t3) :
      TimedReach verifier merkleRoot s t s2 t3
  | step {s : RegistryState} {t : Nat} {s1 s2 : RegistryState} {t2 : Nat}
      (hstep : Step verifier merkleRoot s t s1)
      (htr : TimedReach verifier merkleRoot s1 t s2 t2) :
      TimedReach verifier merkleRoot s t s2 t2

/-- Along a timed trace the clock only advances, the proposal count only
grows, and deadlines of already-existing proposals never change. -/
theorem timedReach_frame {verifier : Groth16Proof → List Nat → Bool}
    {merkleRoot : Nat} {s : RegistryState} {t : Nat} {s2 : RegistryState}
    {t2 : Nat} (htr : TimedReach verifier merkleRoot s t s2 t2) :
    t ≤ t2 ∧ s.proposalCount ≤ s2.proposalCount ∧
    (∀ pid, pid < s.proposalCount →
      (s2.proposals pid).deadline = (s.proposals pid).deadline) := by
  induction htr with
  | refl s t => exact ⟨le_refl t, le_refl _, fun pid _ => rfl⟩
  | advance hle htr ih =>
      exact ⟨le_trans hle ih.1, ih.2.1, ih.2.2⟩
  | step hstep htr ih =>
      obtain ⟨hcount, hdl⟩ := step_frame hstep
      refine ⟨ih.1, le_trans hcount ih.2.1, ?_⟩
      intro pid hpid
      rw [ih.2.2 pid (by omega), hdl pid hpid]

/-! Concrete demonstration objects. -/

/-- A verifier stub accepting every proof (used for concrete witnesses). -/
def trueVerifier : Groth16Proof → List Nat → Bool := fun _ _ => true

/-- A dummy Groth16 proof tuple. -/
def demoProof : Groth16Proof := ⟨(0, 0), ((0, 0), (0, 0)), (0, 0)⟩

/-- A demo contract state: two open proposals with deadline 10, no votes. -/
def demoState : RegistryState :=
  { proposalCount := 2
    proposals := fun i =>
      if i < 2 then { emptyProposal with description := "demo", deadline := 10 }
      else emptyProposal
    usedNullifiers := fun _ => false }

/-- C4: for every call, `vote` fails with `ProposalDoesNotExist` iff the
proposal id is unknown; otherwise with `InvalidVoteValue` iff the vote value
is outside {0,1,2}; otherwise with `VotingEnded` iff `now > deadline` (so a
vote at `now = deadline` passes this check and one at `deadline + 1` fails
it); otherwise with `NullifierAlreadyUsed` iff the hash is already recorded
for this proposal — and whenever one of those four cheap checks fails the
outcome does not depend on the verifier at all, i.e. the checks precede the
verifier call; once all four pass, the oracle is consulted on the public
inputs `[merkleRoot, nullifierHash, proposalId, voteValue]` assembled in
that exact order and the call fails with `InvalidProof` iff the oracle
returns false.  A failing call returns only an error: the `Except`
embedding of the EVM revert carries no state, so no mutation survives. -/
theorem vote_error_behaviour (verifier : Groth16Proof → List Nat → Bool)
    (merkleRoot : Nat) (s : RegistryState)
    (t proposalId nullifierHash voteValue : Nat) (prf : Groth16Proof) :
    (vote verifier merkleRoot s t proposalId nullifierHash voteValue prf
        = Except.error ContractError.ProposalDoesNotExist
      ↔ s.proposalCount ≤ proposalId) ∧
    (proposalId < s.proposalCount →
      (vote verifier merkleRoot s t proposalId nullifierHash voteValue prf
          = Except.error ContractError.InvalidVoteValue
        ↔ 2 < voteValue)) ∧
    (proposalId < s.proposalCount → voteValue ≤ 2 →
      (vote verifier merkleRoot s t proposalId nullifierHash voteValue prf
          = Except.error ContractError.VotingEnded
        ↔ (s.proposals proposalId).deadline < t)) ∧
    (proposalId < s.proposalCount → voteValue ≤ 2 →
      t ≤ (s.proposals proposalId).deadline →
      (vote verifier merkleRoot s t proposalId nullifierHash voteValue prf
          = Except.error ContractError.NullifierAlreadyUsed
        ↔ (s.proposals proposalId).nullifiers nullifierHash = true)) ∧
    ((s.proposalCount ≤ proposalId ∨ 2 < voteValue ∨
        (s.proposals proposalId).deadline < t ∨
        (s.proposals proposalId).nullifiers nullifierHash = true) →
      ∀ verifier2,
        vote verifier2 merkleRoot s t proposalId nullifierHash voteValue prf
          = vote verifier merkleRoot s t proposalId nullifierHash voteValue prf) ∧
    (proposalId < s.proposalCount → voteValue ≤ 2 →
      t ≤ (s.proposals proposalId).deadline →
      (s.proposals proposalId).nullifiers nullifierHash = false →
      (vote verifier merkleRoot s t proposalId nullifierHash voteValue prf
          = Except.error ContractError.InvalidProof
        ↔ verifier prf [merkleRoot, nullifierHash, proposalId, voteValue]
            = false)) := by
  refine ⟨?_, ?_, ?_, ?_, ?_, ?_⟩
  · constructor
    · intro heq
      by_contra hge
      rcases vote_classify verifier merkleRoot s t proposalId nullifierHash
          voteValue prf with
        ⟨hge2, -⟩ | ⟨-, -, he⟩ | ⟨-, -, -, he⟩ | ⟨-, -, -, -, he⟩ |
        ⟨-, -, -, -, -, he⟩ | ⟨-, -, -, -, -, ⟨s1, he⟩ | he⟩ <;>
        first
          | exact hge hge2
          | (rw [he] at heq; simp at heq)
    · exact vote_err_notFound _ _ _ _ _ _ _ _
  · intro hlt
    constructor
    · intro heq
      by_contra hv
      rcases vote_classify verifier merkleRoot s t proposalId nullifierHash
          voteValue prf with
        ⟨hge2, -⟩ | ⟨-, hv2, -⟩ | ⟨-, -, -, he⟩ | ⟨-, -, -, -, he⟩ |
        ⟨-, -, -, -, -, he⟩ | ⟨-, -, -, -, -, ⟨s1, he⟩ | he⟩ <;>
        first
          | omega
          | exact hv hv2
          | (rw [he] at heq; simp at heq)
    · exact vote_err_invalidValue _ _ _ _ _ _ _ _ hlt
  · intro hlt hv
    constructor
    · intro heq
      by_contra ht
      rcases vote_classify verifier merkleRoot s t proposalId nullifierHash
          voteValue prf with
        ⟨hge2, -⟩ | ⟨-, hv2, -⟩ | ⟨-, -, ht2, -⟩ | ⟨-, -, -, -, he⟩ |
        ⟨-, -, -, -, -, he⟩ | ⟨-, -, -, -, -, ⟨s1, he⟩ | he⟩ <;>
        first
          | omega
          | exact ht ht2
          | (rw [he] at heq; simp at heq)
    · exact vote_err_ended _ _ _ _ _ _ _ _ hlt hv
  · intro hlt hv ht
    constructor
    · intro heq
      by_contra hn
      rcases vote_classify verifier merkleRoot s t proposalId nullifierHash
          voteValue prf with
        ⟨hge2, -⟩ | ⟨-, hv2, -⟩ | ⟨-, -, ht2, -⟩ | ⟨-, -, -, hn2, -⟩ |
        ⟨-, -, -, -, -, he⟩ | ⟨-, -, -, -, -, ⟨s1, he⟩ | he⟩ <;>
        first
          | omega
          | exact hn hn2
          | (rw [he] at heq; simp at heq)
    · exact vote_err_nullifierUsed _ _ _ _ _ _ _ _ hlt hv ht
  · intro hcase verifier2
    by_cases hge : s.proposalCount ≤ proposalId
    · rw [vote_err_notFound verifier _ _ _ _ _ _ _ hge,
        vote_err_notFound verifier2 _ _ _ _ _ _ _ hge]
    · by_cases hv : 2 < voteValue
      · rw [vote_err_invalidValue verifier _ _ _ _ _ _ _ (by omega) hv,
          vote_err_invalidValue verifier2 _ _ _ _ _ _ _ (by omega) hv]
      · by_cases ht : (s.proposals proposalId).deadline < t
        · rw [vote_err_ended verifier _ _ _ _ _ _ _ (by omega) (by omega) ht,
            vote_err_ended verifier2 _ _ _ _ _ _ _ (by omega) (by omega) ht]
        · have hn : (s.proposals proposalId).nullifiers nullifierHash = true := by
            rcases hcase with h | h | h | h
            · omega
            · omega
            · omega
            · exact h
          rw [vote_err_nullifierUsed verifier _ _ _ _ _ _ _ (by omega) (by omega)
              (by omega) hn,
            vote_err_nullifierUsed verifier2 _ _ _ _ _ _ _ (by omega) (by omega)
              (by omega) hn]
  · intro hlt hv ht hn
    constructor
    · intro heq
      by_contra hvf
      have hvt : verifier prf [merkleRoot, nullifierHash, proposalId, voteValue]
          = true := by
        simpa using hvf
      rcases vote_classify verifier merkleRoot s t proposalId nullifierHash
          voteValue prf with
        ⟨hge2, -⟩ | ⟨-, hv2, -⟩ | ⟨-, -, ht2, -⟩ | ⟨-, -, -, hn2, -⟩ |
        ⟨-, -, -, -, hvf2, -⟩ | ⟨-, -, -, -, -, ⟨s1, he⟩ | he⟩
      · omega
      · omega
      · omega
      · rw [hn] at hn2; exact Bool.noConfusion hn2
      · rw [hvt] at hvf2; exact Bool.noConfusion hvf2
      · rw [he] at heq; simp at heq
      · rw [he] at heq; simp at heq
    · exact vote_err_invalidProof _ _ _ _ _ _ _ _ hlt hv ht hn

/-- Witness for C4: in `demoState` (deadline 10) a vote at time 11 reverts
precisely with `VotingEnded`. -/
theorem vote_error_behaviour_witness :
    vote trueVerifier 0 demoState 11 0 5 1 demoProof
        = Except.error ContractError.VotingEnded
      ↔ (demoState.proposals 0).deadline < 11 :=
  (vote_error_behaviour trueVerifier 0 demoState 11 0 5 1 demoProof).2.2.1
    (by decide) (by decide)

/-- C5: every successful `vote` records the nullifier hash for that proposal
and increments exactly one tally by exactly one — `noVotes` for value 0,
`yesVotes` for 1, `abstainVotes` for 2 — while the proposal's description,
deadline, executed flag, the other two tallies, every other nullifier entry
and every other proposal stay unchanged (and the proposal count as well). -/
theorem vote_success_postcondition (verifier : Groth16Proof → List Nat → Bool)
    (merkleRoot : Nat) (s : RegistryState)
    (t proposalId nullifierHash voteValue : Nat) (prf : Groth16Proof)
    (s1 : RegistryState)
    (hok : vote verifier merkleRoot s t proposalId nullifierHash voteValue prf
      = Except.ok s1) :
    (s1.proposals proposalId).nullifiers nullifierHash = true ∧
    (s1.proposals proposalId).noVotes
      = (s.proposals proposalId).noVotes + (if voteValue = 0 then 1 else 0) ∧
    (s1.proposals proposalId).yesVotes
      = (s.proposals proposalId).yesVotes + (if voteValue = 1 then 1 else 0) ∧
    (s1.proposals proposalId).abstainVotes
      = (s.proposals proposalId).abstainVotes + (if voteValue = 2 then 1 else 0) ∧
    (s1.proposals proposalId).description
      = (s.proposals proposalId).description ∧
    (s1.proposals proposalId).deadline = (s.proposals proposalId).deadline ∧
    (s1.proposals proposalId).executed = (s.proposals proposalId).executed ∧
    (∀ n, n ≠ nullifierHash →
      (s1.proposals proposalId).nullifiers n
        = (s.proposals proposalId).nullifiers n) ∧
    (∀ q, q ≠ proposalId → s1.proposals q = s.proposals q) ∧
    s1.proposalCount = s.proposalCount := by
  obtain ⟨-, -, -, -, -, hcount, -, hother, hdesc, hdl, hex, hnul, hnulo, hno,
    hyes, habs⟩ := vote_ok_shape _ _ _ _ _ _ _ _ _ hok
  exact ⟨hnul, hno, hyes, habs, hdesc, hdl, hex, hnulo, hother, hcount⟩

/-- The state after the concrete demo vote: member nullifier hash 5 votes
yes on proposal 0 of `demoState` exactly at the deadline. -/
def demoVotedState : RegistryState :=
  match vote trueVerifier 0 demoState 10 0 5 1 demoProof with
  | Except.ok s1 => s1
  | Except.error _ => demoState

/-- Witness for C5: the demo vote succeeds, marks nullifier 5 and bumps the
yes tally from 0 to 1. -/
theorem vote_success_postcondition_witness :
    vote trueVerifier 0 demoState 10 0 5 1 demoProof
        = Except.ok demoVotedState ∧
    (demoVotedState.proposals 0).nullifiers 5 = true ∧
    (demoVotedState.proposals 0).yesVotes
      = (demoState.proposals 0).yesVotes + 1 := by
  refine ⟨rfl, ?_, ?_⟩
  · exact (vote_success_postcondition trueVerifier 0 demoState 10 0 5 1
      demoProof demoVotedState rfl).1
  · have h := (vote_success_postcondition trueVerifier 0 demoState 10 0 5 1
      demoProof demoVotedState rfl).2.2.1
    simpa using h

/-- Observable part of a state-returning call: everything except the
write-only `usedNullifiers` component. -/
def obsState (r : Except ContractError RegistryState) :
    Except ContractError (Nat × (Nat → Proposal)) :=
  r.map fun st => (st.proposalCount, st.proposals)

/-- Observable part of `createProposal`: returned id plus everything except
the write-only `usedNullifiers` component. -/
def obsCreate (r : Except ContractError (Nat × RegistryState)) :
    Except ContractError (Nat × Nat × (Nat → Proposal)) :=
  r.map fun p => (p.1, p.2.proposalCount, p.2.proposals)

set_option maxHeartbeats 2000000 in
/-- C6: consuming a nullifier hash on one proposal never touches another
proposal's nullifier set (the `NullifierAlreadyUsed` check reads only the
target proposal's own set), and the global `usedNullifiers` map is written
but never read: replacing it by anything changes no operation's outcome
beyond that very component. -/
theorem nullifier_independence :
    (∀ (verifier : Groth16Proof → List Nat → Bool) (merkleRoot : Nat)
        (s : RegistryState) (t A nullifierHash voteValue : Nat)
        (prf : Groth16Proof) (s1 : RegistryState) (B : Nat),
      vote verifier merkleRoot s t A nullifierHash voteValue prf
        = Except.ok s1 →
      B ≠ A →
      (s1.proposals B).nullifiers = (s.proposals B).nullifiers) ∧
    (∀ (s : RegistryState) (u : Nat → Bool) (t : Nat) (description : String)
        (duration : Nat),
      obsCreate (createProposal { s with usedNullifiers := u } t description
          duration)
        = obsCreate (createProposal s t description duration)) ∧
    (∀ (verifier : Groth16Proof → List Nat → Bool) (merkleRoot : Nat)
        (s : RegistryState) (u : Nat → Bool)
        (t proposalId nullifierHash voteValue : Nat) (prf : Groth16Proof),
      obsState (vote verifier merkleRoot { s with usedNullifiers := u } t
          proposalId nullifierHash voteValue prf)
        = obsState (vote verifier merkleRoot s t proposalId nullifierHash
            voteValue prf)) ∧
    (∀ (s : RegistryState) (u : Nat → Bool) (t proposalId : Nat),
      obsState (executeProposal { s with usedNullifiers := u } t proposalId)
        = obsState (executeProposal s t proposalId)) ∧
    (∀ (s : RegistryState) (u : Nat → Bool) (proposalId : Nat),
      getProposalVotes { s with usedNullifiers := u } proposalId
        = getProposalVotes s proposalId) := by
  refine ⟨?_, ?_, ?_, ?_, ?_⟩
  · intro verifier merkleRoot s t A nullifierHash voteValue prf s1 B hok hBA
    obtain ⟨-, -, -, -, -, -, -, hother, -⟩ :=
      vote_ok_shape _ _ _ _ _ _ _ _ _ hok
    rw [hother B hBA]
  · intro s u t description duration
    unfold createProposal
    split_ifs <;> rfl
  · intro verifier merkleRoot s u t proposalId nullifierHash voteValue prf
    unfold vote
    dsimp only
    split_ifs <;> rfl
  · intro s u t proposalId
    unfold executeProposal
    split_ifs <;> rfl
  · intro s u proposalId
    unfold getProposalVotes
    split_ifs <;> rfl

/-- Witness for C6: after the demo vote consumed nullifier hash 5 on
proposal 0, proposal 1's nullifier set is untouched. -/
theorem nullifier_independence_witness :
    (demoVotedState.proposals 1).nullifiers
      = (demoState.proposals 1).nullifiers :=
  nullifier_independence.1 trueVerifier 0 demoState 10 0 5 1 demoProof
    demoVotedState 1 rfl (by decide)

/-- C7 counterexample: the claim that `executeProposal`'s not-yet-closed
failure uses an error distinct from the one `vote` uses for a closed ballot
is false — in `demoState` (deadline 10) executing at time 5 and voting at
time 11 revert with the one and the same `VotingEnded` error constructor. -/
theorem executeProposal_error_not_distinct :
    executeProposal demoState 5 0 = Except.error ContractError.VotingEnded ∧
    vote trueVerifier 0 demoState 11 0 5 1 demoProof
      = Except.error ContractError.VotingEnded :=
  ⟨rfl, rfl⟩

/-- C7 (amended): `executeProposal` fails with `ProposalDoesNotExist` iff
the proposal id is unknown; otherwise with `ProposalAlreadyExecuted` iff
the proposal is already executed; otherwise — reusing the very same
`VotingEnded` error that `vote` uses, the contract declaring no distinct
not-yet-closed error — iff `now ≤ deadline`; otherwise it sets `executed`
to true, changes nothing else anywhere, and a repeated call then fails
with `ProposalAlreadyExecuted` (one-way terminal transition). -/
theorem executeProposal_behaviour (s : RegistryState) (t proposalId : Nat) :
    (executeProposal s t proposalId
        = Except.error ContractError.ProposalDoesNotExist
      ↔ s.proposalCount ≤ proposalId) ∧
    (proposalId < s.proposalCount →
      (executeProposal s t proposalId
          = Except.error ContractError.ProposalAlreadyExecuted
        ↔ (s.proposals proposalId).executed = true)) ∧
    (proposalId < s.proposalCount → (s.proposals proposalId).executed = false →
      (executeProposal s t proposalId
          = Except.error ContractError.VotingEnded
        ↔ t ≤ (s.proposals proposalId).deadline)) ∧
    (proposalId < s.proposalCount → (s.proposals proposalId).executed = false →
      (s.proposals proposalId).deadline < t →
      ∃ s1, executeProposal s t proposalId = Except.ok s1 ∧
        (s1.proposals proposalId).executed = true ∧
        (s1.proposals proposalId).description
          = (s.proposals proposalId).description ∧
        (s1.proposals proposalId).deadline
          = (s.proposals proposalId).deadline ∧
        (s1.proposals proposalId).yesVotes
          = (s.proposals proposalId).yesVotes ∧
        (s1.proposals proposalId).noVotes
          = (s.proposals proposalId).noVotes ∧
        (s1.proposals proposalId).abstainVotes
          = (s.proposals proposalId).abstainVotes ∧
        (s1.proposals proposalId).nullifiers
          = (s.proposals proposalId).nullifiers ∧
        (∀ q, q ≠ proposalId → s1.proposals q = s.proposals q) ∧
        s1.proposalCount = s.proposalCount ∧
        s1.usedNullifiers = s.usedNullifiers ∧
        executeProposal s1 t proposalId
          = Except.error ContractError.ProposalAlreadyExecuted) := by
  rcases executeProposal_classify s t proposalId with
    ⟨hge, he⟩ | ⟨hlt, hex, he⟩ | ⟨hlt, hex, ht, he⟩ | ⟨hlt, hex, ht, he⟩
  · refine ⟨by rw [he]; simp [hge], ?_, ?_, ?_⟩
    · intro hlt; omega
    · intro hlt _; omega
    · intro hlt _ _; omega
  · refine ⟨by rw [he]; simp; omega, ?_, ?_, ?_⟩
    · intro _; rw [he]; simp [hex]
    · intro _ hex2; rw [hex] at hex2; exact Bool.noConfusion hex2
    · intro _ hex2 _; rw [hex] at hex2; exact Bool.noConfusion hex2
  · refine ⟨by rw [he]; simp; omega, ?_, ?_, ?_⟩
    · intro _; rw [he]; simp [hex]
    · intro _ _; rw [he]; simp [ht]
    · intro _ _ ht2; omega
  · refine ⟨by rw [he]; simp; omega, ?_, ?_, ?_⟩
    · intro _; rw [he]; simp [hex]
    · intro _ _; rw [he]; simp; omega
    · intro _ _ _
      refine ⟨_, he, by simp, by simp, by simp, by simp, by simp, by simp,
        by simp, ?_, rfl, rfl, ?_⟩
      · intro q hq; simp [hq]
      · unfold executeProposal
        rw [if_neg (by simp; omega), if_pos (by simp)]

/-- Witness for C7: executing proposal 0 of `demoState` at time 5 (before
the deadline 10) reverts precisely when `t ≤ deadline`. -/
theorem executeProposal_behaviour_witness :
    executeProposal demoState 5 0 = Except.error ContractError.VotingEnded
      ↔ 5 ≤ (demoState.proposals 0).deadline :=
  (executeProposal_behaviour demoState 5 0).2.2.1 (by decide) (by decide)

/-- C8 counterexample: `createProposal` does not succeed for every duration.
With `duration = 2^256 - 1` at timestamp 1 the checked Solidity 0.8
addition `block.timestamp + duration` overflows uint256 and the whole call
reverts with Panic 0x11. -/
theorem createProposal_overflow :
    createProposal initialState 1 "overflow" (U256 - 1)
      = Except.error ContractError.Panic := by
  unfold createProposal initialState U256
  norm_num

/-- C8 (amended): for every description and every duration such that the
two checked uint256 additions stay in range (`proposalCount + 1 < 2^256`
and `now + duration < 2^256`, always true in practice), `createProposal`
succeeds, returns an id equal to the proposal count before the call (so
ids are allocated consecutively from 0), increments the count by one and
stores a fresh proposal with the given description, `deadline = now +
duration`, all three tallies zero, `executed = false` and an empty
nullifier set, touching nothing else. -/
theorem createProposal_success_spec
    (verifier : Groth16Proof → List Nat → Bool) (merkleRoot : Nat)
    (s : RegistryState) (t : Nat) (description : String) (duration : Nat)
    (hreach : Reachable verifier merkleRoot s)
    (hcount : s.proposalCount + 1 < U256) (hdur : t + duration < U256) :
    ∃ s1, createProposal s t description duration
        = Except.ok (s.proposalCount, s1) ∧
      s1.proposalCount = s.proposalCount + 1 ∧
      s1.proposals s.proposalCount =
        { description := description
          deadline := t + duration
          yesVotes := 0
          noVotes := 0
          abstainVotes := 0
          executed := false
          nullifiers := fun _ => false } ∧
      (∀ i, i ≠ s.proposalCount → s1.proposals i = s.proposals i) ∧
      s1.usedNullifiers = s.usedNullifiers := by
  have hempty := reachable_fresh_slots hreach s.proposalCount (le_refl _)
  refine ⟨{ s with
      proposalCount := s.proposalCount + 1
      proposals := fun i =>
        if i = s.proposalCount then
          { s.proposals i with
            description := description
            deadline := t + duration }
        else s.proposals i }, ?_, rfl, ?_, ?_, rfl⟩
  · unfold createProposal
    rw [if_pos hcount, if_pos hdur]
  · simp [hempty, emptyProposal]
  · intro i hi
    simp [hi]

/-- Witness for C8: the very first proposal on a fresh deployment gets id
0, deadline `0 + 100`, zero tallies and no consumed nullifiers. -/
theorem createProposal_success_spec_witness :
    ∃ s1, createProposal initialState 0 "genesis" 100
        = Except.ok (initialState.proposalCount, s1) ∧
      s1.proposalCount = initialState.proposalCount + 1 ∧
      s1.proposals initialState.proposalCount =
        { description := "genesis"
          deadline := 0 + 100
          yesVotes := 0
          noVotes := 0
          abstainVotes := 0
          executed := false
          nullifiers := fun _ => false } ∧
      (∀ i, i ≠ initialState.proposalCount →
        s1.proposals i = initialState.proposals i) ∧
      s1.usedNullifiers = initialState.usedNullifiers :=
  createProposal_success_spec trueVerifier 0 initialState 0 "genesis" 100
    Reachable.init (by norm_num [initialState, U256]) (by norm_num [U256])

/-- C10: (i) at one and the same timestamp a `vote` and an
`executeProposal` on the same proposal can never both succeed, since the
former requires `t ≤ deadline` and the latter `deadline < t`; (ii) no
successful call ever modifies the deadline of an existing proposal; and
(iii) with a non-decreasing host clock, once a proposal has been executed
no vote on it is ever accepted again. -/
theorem vote_execute_exclusion
    (verifier : Groth16Proof → List Nat → Bool) (merkleRoot : Nat) :
    (∀ s t proposalId nullifierHash voteValue prf s1 s2,
      vote verifier merkleRoot s t proposalId nullifierHash voteValue prf
        = Except.ok s1 →
      executeProposal s t proposalId ≠ Except.ok s2) ∧
    (∀ s t s1, Step verifier merkleRoot s t s1 →
      ∀ pid, pid < s.proposalCount →
        (s1.proposals pid).deadline = (s.proposals pid).deadline) ∧
    (∀ s t proposalId s1,
      executeProposal s t proposalId = Except.ok s1 →
      ∀ s2 t2, TimedReach verifier merkleRoot s1 t s2 t2 →
      ∀ nullifierHash voteValue prf s3,
        vote verifier merkleRoot s2 t2 proposalId nullifierHash voteValue prf
          ≠ Except.ok s3) := by
  refine ⟨?_, ?_, ?_⟩
  · intro s t proposalId nullifierHash voteValue prf s1 s2 hvote hexec
    obtain ⟨-, -, ht, -⟩ := vote_ok_shape _ _ _ _ _ _ _ _ _ hvote
    obtain ⟨-, -, ht2, -⟩ := executeProposal_ok_shape _ _ _ _ hexec
    omega
  · intro s t s1 hstep pid hpid
    exact (step_frame hstep).2 pid hpid
  · intro s t proposalId s1 hexec s2 t2 htr nullifierHash voteValue prf s3 hvote
    obtain ⟨hpid, -, htgt, hcount1, -, hat, -⟩ :=
      executeProposal_ok_shape _ _ _ _ hexec
    obtain ⟨htle, hcmono, hdl⟩ := timedReach_frame htr
    obtain ⟨hpid2, -, htv, -⟩ := vote_ok_shape _ _ _ _ _ _ _ _ _ hvote
    have h1 : (s2.proposals proposalId).deadline
        = (s1.proposals proposalId).deadline := hdl proposalId (by omega)
    have h2 : (s1.proposals proposalId).deadline
        = (s.proposals proposalId).deadline := by rw [hat]
    omega

/-- The state of `demoState` after proposal 0 is executed at time 11. -/
def demoExecutedState : RegistryState :=
  match executeProposal demoState 11 0 with
  | Except.ok s1 => s1
  | Except.error _ => demoState

/-- Witness for C10: after executing proposal 0 at time 11 and letting the
clock advance to 12, a vote on proposal 0 is not accepted. -/
theorem vote_execute_exclusion_witness :
    vote trueVerifier 0 demoExecutedState 12 0 5 1 demoProof
      ≠ Except.ok demoExecutedState :=
  (vote_execute_exclusion trueVerifier 0).2.2 demoState 11 0 demoExecutedState
    rfl demoExecutedState 12
    (TimedReach.advance (by omega) (TimedReach.refl _ _)) 5 1 demoProof
    demoExecutedState

/-! Off-chain tool: the CLI `MerkleTree` class (cli/vote.js, lines 42-103).

The JavaScript class is untyped and receives its hash function as a
constructor argument, so the embedding is polymorphic in the node type and
takes the hasher as a field.  The `zero_values` array (`zero_values[0]` the
constructor argument, `zero_values[i] = hasher(zv[i-1], zv[i-1])`) is
threaded through the level loops as an accumulator that is squared once per
level — the same values the JS array holds at the indices the loops read. -/

/-- One `buildTree` level step (cli/vote.js, lines 62-66): pair adjacent
nodes left to right; an unmatched last node is paired with the level's
zero value. -/
def pairLevel (hasher : α → α → α) (z : α) : List α → List α
  | [] => []
  | [a] => [hasher a z]
  | a :: b :: rest => hasher a b :: pairLevel hasher z rest

/-- Method `buildTree` (cli/vote.js, lines 57-70): starting from `layers = [leaves]`
the loop runs for `level = 0 .. levels-2`, i.e. `levels - 1` iterations,
each pushing the next level; `z` is the current level's zero value. -/
def buildLayers (hasher : α → α → α) (z : α) (cur : List α) :
    Nat → List (List α)
  | 0 => [cur]
  | n + 1 => cur :: buildLayers hasher (hasher z z) (pairLevel hasher z cur) n

/-- The CLI `MerkleTree` constructor state (cli/vote.js, lines 43-55). -/
structure MerkleTree (α : Type) where
  levels : Nat
  hasher : α → α → α
  zeroValue : α
  leaves : List α

/-- Field `this.layers` after construction: `levels - 1` pairing iterations on top
of the leaves. -/
def MerkleTree.layers (tr : MerkleTree α) : List (List α) :=
  buildLayers tr.hasher tr.zeroValue tr.leaves (tr.levels - 1)

/-- Method `getRoot` (cli/vote.js, lines 72-74): reads `layers[levels - 1][0]`;
`none` models the JavaScript `undefined` of a missing entry. -/
def MerkleTree.getRoot (tr : MerkleTree α) : Option α :=
  (tr.layers.getD (tr.levels - 1) []).get? 0

/-- The loop body of `getProof` (cli/vote.js, lines 82-99), with `z` the
current level's zero value and `n` the remaining iterations
(`levels - 1` in total).  Mirrors the source exactly: `position = index % 2`,
`levelIndex = floor(index / 2)`; for an even position the sibling is
`currentLevel[levelIndex * 2 + 1]` whenever `levelIndex + 1 <
currentLevel.length` (note the guard tests `levelIndex + 1`, not
`levelIndex * 2 + 1`) and the zero value otherwise; for an odd position it
is `currentLevel[levelIndex * 2]`.  An out-of-range array read — which the
mismatched guard makes reachable — yields `undefined` in JavaScript and is
modelled as `none`. -/
def getProofAux (hasher : α → α → α) (layers : List (List α)) :
    α → Nat → Nat → Nat → Option (List α × List Nat)
  | _, _, _, 0 => some ([], [])
  | z, level, index, n + 1 =>
    let currentLevel := layers.getD level []
    let position := index % 2
    let levelIndex := index / 2
    let elem? : Option α :=
      if position = 0 then
        if levelIndex + 1 < currentLevel.length then
          currentLevel.get? (levelIndex * 2 + 1)
        else some z
      else currentLevel.get? (levelIndex * 2)
    match elem?, getProofAux hasher layers (hasher z z) (level + 1)
        (index / 2) n with
    | some e, some pr => some (e :: pr.1, position :: pr.2)
    | _, _ => none

/-- Method `getProof` (cli/vote.js, lines 76-102): returns
`(pathElements, pathIndices)`. -/
def MerkleTree.getProof (tr : MerkleTree α) (index : Nat) :
    Option (List α × List Nat) :=
  getProofAux tr.hasher tr.layers tr.zeroValue 0 index (tr.levels - 1)

/-- Method `buildTree` produces exactly `n + 1` layers for `n` pairing
iterations. -/
theorem buildLayers_length (hasher : α → α → α) :
    ∀ (n : Nat) (z : α) (cur : List α),
      (buildLayers hasher z cur n).length = n + 1 := by
  intro n
  induction n with
  | zero => intro z cur; rfl
  | succ n ih =>
      intro z cur
      show (cur :: buildLayers hasher (hasher z z) (pairLevel hasher z cur) n).length
        = n + 1 + 1
      rw [List.length_cons, ih]

/-- A successful `getProof` walk of `n` iterations returns paths of length
exactly `n`. -/
theorem getProofAux_lengths (hasher : α → α → α) (layers : List (List α)) :
    ∀ (n : Nat) (z : α) (level index : Nat) (pr : List α × List Nat),
      getProofAux hasher layers z level index n = some pr →
      pr.1.length = n ∧ pr.2.length = n := by
  intro n
  induction n with
  | zero =>
      intro z level index pr h
      unfold getProofAux at h
      injection h with h
      rw [← h]
      exact ⟨rfl, rfl⟩
  | succ n ih =>
      intro z level index pr h
      unfold getProofAux at h
      dsimp only at h
      split at h
      · next e pr2 helem hrec =>
          injection h with h
          obtain ⟨h1, h2⟩ := ih (hasher z z) (level + 1) (index / 2) pr2 hrec
          rw [← h]
          exact ⟨by simpa using h1, by simpa using h2⟩
      · exact Option.noConfusion h

/-- C2: the CLI accumulator at depth 20 is off by one.  For every hasher
and every leaf sequence the constructed tree has exactly 20 layers
(`layers[0..19]`; `layers[20]` does not exist), its root is read from
`layers[19][0]` — i.e. leaves are hashed upward through only 19 pairing
levels — and every inclusion proof it returns has `pathElements` and
`pathIndices` of length exactly 19, not the 21 layers, `layers[20][0]`
root and length-20 proofs the claim (and the `Vote(20)` circuit) state. -/
theorem merkleTree_depth_off_by_one (α : Type) (hasher : α → α → α)
    (zero : α) (leaves : List α) :
    (MerkleTree.layers ⟨20, hasher, zero, leaves⟩).length = 20 ∧
    (MerkleTree.layers ⟨20, hasher, zero, leaves⟩).get? 20 = none ∧
    MerkleTree.getRoot ⟨20, hasher, zero, leaves⟩
      = ((MerkleTree.layers ⟨20, hasher, zero, leaves⟩).getD 19 []).get? 0 ∧
    (∀ index pr,
      MerkleTree.getProof ⟨20, hasher, zero, leaves⟩ index = some pr →
      pr.1.length = 19 ∧ pr.2.length = 19) := by
  have hlen : (MerkleTree.layers ⟨20, hasher, zero, leaves⟩).length = 20 :=
    buildLayers_length hasher 19 zero leaves
  refine ⟨hlen, ?_, rfl, ?_⟩
  · exact List.get?_eq_none.mpr (by omega)
  · intro index pr h
    exact getProofAux_lengths hasher _ 19 zero 0 index pr h

/-- A cheap stand-in hasher for concrete evaluation (the claims proved
with it are universally quantified over the hasher). -/
def demoNatHasher : Nat → Nat → Nat := fun x _ => x + 1

/-- A concrete tree over `Nat`, used to exhibit the shapes at an explicit
input. -/
def demoNatTree : MerkleTree Nat := ⟨20, demoNatHasher, 0, [1, 2, 3, 4]⟩

/-- The inclusion proof `demoNatTree` returns for leaf index 2. -/
def demoNatProof : List Nat × List Nat := (demoNatTree.getProof 2).getD ([], [])

set_option maxHeartbeats 1600000 in
/-- Witness for C2: on the concrete 4-leaf tree, `getProof 2` succeeds and
both path components have length 19, and the layer/root shape is as the
theorem states. -/
theorem merkleTree_depth_off_by_one_witness :
    demoNatTree.getProof 2 = some demoNatProof ∧
    demoNatTree.layers.length = 20 ∧
    demoNatProof.1.length = 19 ∧ demoNatProof.2.length = 19 := by
  refine ⟨rfl, (merkleTree_depth_off_by_one Nat demoNatHasher 0 [1, 2, 3, 4]).1,
    ?_, ?_⟩
  · exact ((merkleTree_depth_off_by_one Nat demoNatHasher 0 [1, 2, 3, 4]).2.2.2 2
      demoNatProof rfl).1
  · exact ((merkleTree_depth_off_by_one Nat demoNatHasher 0 [1, 2, 3, 4]).2.2.2 2
      demoNatProof rfl).2

/-- C3: the inclusion-proof round trip fails on the code itself.  For a
3-leaf tree and leaf index 2 — an odd-length level whose last node is the
target — `getProof`'s guard `levelIndex + 1 < currentLevel.length`
(cli/vote.js line 89) passes although the accessed sibling slot
`currentLevel[levelIndex * 2 + 1] = currentLevel[3]` does not exist, so the
read yields JavaScript `undefined` (modelled `none`) instead of the level's
zero value and no foldable proof is produced at all, for every hasher. -/
theorem getProof_reads_out_of_range (α : Type) (hasher : α → α → α)
    (zero : α) (a b c : α) :
    MerkleTree.getProof ⟨20, hasher, zero, [a, b, c]⟩ 2 = none := rfl

/-! The BN254 scalar field, the `cast` witness and the `Vote(20)` circuit. -/

/-- Order of the BN254 scalar field over which Poseidon, the circuit
signals and the CLI field elements live. -/
def SNARK_PRIME : Nat :=
  21888242871839275222246405745257275088548364400416034343698204186575808495617

/-- The scalar field. -/
abbrev Fr := ZMod SNARK_PRIME

/-- The witness object the CLI `cast` command assembles for the prover
(cli/vote.js, lines 211-220): public root, nullifierHash, proposalId,
voteValue; private nullifier, secret, pathElements, pathIndices. -/
structure VoteWitness where
  root : Fr
  nullifierHash : Fr
  proposalId : Fr
  voteValue : Fr
  nullifier : Fr
  secret : Fr
  pathElements : List Fr
  pathIndices : List Fr

/-- Witness assembly of `cast` (cli/vote.js, lines 195-220): the tree is
built at height 20 (`CONFIG.merkleTreeHeight`) with zero value 0 over the
raw member commitments as leaves; root and inclusion proof are read from
it; `nullifierHash = Poseidon1(nullifier)`.  `none` models the CLI
crashing on a missing root or on an out-of-range proof read. -/
def castWitness (poseidon2 : Fr → Fr → Fr) (poseidon1 : Fr → Fr)
    (commitments : List Fr) (memberIndex : Nat)
    (nullifier secret proposalId voteValue : Fr) : Option VoteWitness :=
  let tree : MerkleTree Fr := ⟨20, poseidon2, 0, commitments⟩
  match tree.getRoot, tree.getProof memberIndex with
  | some root, some pr =>
    some { root := root
           nullifierHash := poseidon1 nullifier
           proposalId := proposalId
           voteValue := voteValue
           nullifier := nullifier
           secret := secret
           pathElements := pr.1
           pathIndices := pr.2.map (fun i => (i : Fr)) }
  | _, _ => none

/-- The upward fold of `MerkleTreeChecker` (circuits/vote.circom, lines
9-42): one `MultiMux1`+`Poseidon(2)` stage per level; for the binary
selector `s`, `s = 0` hashes `(current, sibling)` and `s = 1` hashes
`(sibling, current)`. -/
def merkleFold (poseidon2 : Fr → Fr → Fr) : Fr → List (Fr × Fr) → Fr
  | cur, [] => cur
  | cur, (e, s) :: rest =>
      merkleFold poseidon2 (if s = 0 then poseidon2 cur e else poseidon2 e cur)
        rest

/-- Satisfiability of the `Vote(20)` constraint system
(circuits/vote.circom, template Vote, instantiated at `levels = 20` on
line 116): the witness has exactly 20 path-element and path-index signals;
`voteValue (voteValue - 1) (voteValue - 2) = 0`; `nullifier`, `secret` and
`proposalId` are nonzero (`IsZero().out === 0`);
`Poseidon1(nullifier) = nullifierHash`; every path index is binary
(`Num2Bits(1)`); and folding the leaf
`Poseidon2(Poseidon2(nullifier, secret), proposalId)` up through the 20
mux/hash stages yields the public root. -/
def voteCircuit (poseidon2 : Fr → Fr → Fr) (poseidon1 : Fr → Fr)
    (w : VoteWitness) : Prop :=
  w.pathElements.length = 20 ∧ w.pathIndices.length = 20 ∧
  w.voteValue * (w.voteValue - 1) * (w.voteValue - 2) = 0 ∧
  w.nullifier ≠ 0 ∧ w.secret ≠ 0 ∧ w.proposalId ≠ 0 ∧
  poseidon1 w.nullifier = w.nullifierHash ∧
  (∀ s ∈ w.pathIndices, s = 0 ∨ s = 1) ∧
  merkleFold poseidon2
      (poseidon2 (poseidon2 w.nullifier w.secret) w.proposalId)
      (w.pathElements.zip w.pathIndices)
    = w.root

/-- C1: completeness fails on the code.  Every witness the CLI assembles
carries a Merkle path of length 19 (the CLI tree performs only 19 pairing
levels), while `Vote(20)` has exactly 20 path-element and path-index input
signals, so no witness assembled by `cast` satisfies the constraint
system, whatever the hash functions — in particular not the end-to-end
scenario of member index 2 of a 4-member tree voting yes on proposal 0
(which the circuit would additionally reject because it constrains
`proposalId ≠ 0`, and whose tree is built over raw commitments rather than
over the `Poseidon2(commitment, proposalId)` leaves the circuit hashes). -/
theorem castWitness_unsatisfiable (poseidon2 : Fr → Fr → Fr)
    (poseidon1 : Fr → Fr) (commitments : List Fr) (memberIndex : Nat)
    (nullifier secret proposalId voteValue : Fr) (w : VoteWitness)
    (hw : castWitness poseidon2 poseidon1 commitments memberIndex nullifier
      secret proposalId voteValue = some w) :
    ¬ voteCircuit poseidon2 poseidon1 w := by
  intro hsat
  unfold castWitness at hw
  dsimp only at hw
  split at hw
  · next root pr hroot hproof =>
      injection hw with hw
      have hlen : pr.1.length = 19 :=
        (getProofAux_lengths poseidon2 _ 19 0 0 memberIndex pr hproof).1
      have hpe : w.pathElements = pr.1 := by rw [← hw]
      have h20 : w.pathElements.length = 20 := hsat.1
      rw [hpe, hlen] at h20
      exact absurd h20 (by omega)
  · exact Option.noConfusion hw

/-- A cheap stand-in for `Poseidon(2)` used only for concrete evaluation
(the claims proved with it are universally quantified over the hash). -/
def demoFrHash2 : Fr → Fr → Fr := fun x _ => x + 1

/-- A cheap stand-in for `Poseidon(1)` used only for concrete evaluation. -/
def demoFrHash1 : Fr → Fr := fun x => x + 2

/-- Four concrete member commitments (the end-to-end scenario's tree). -/
def demoCommitments : List Fr := [1, 2, 3, 4]

/-- The witness `cast` assembles for member index 2 of the 4-member tree
voting yes (1) on proposal 0. -/
def demoCastWitness : VoteWitness :=
  (castWitness demoFrHash2 demoFrHash1 demoCommitments 2 1 1 0 1).getD
    ⟨0, 0, 0, 0, 0, 0, [], []⟩

/-- Witness for C1: the end-to-end witness assembly succeeds concretely
(member 2 of 4, proposal 0, vote yes) and the result does not satisfy
`Vote(20)`. -/
theorem castWitness_unsatisfiable_witness :
    castWitness demoFrHash2 demoFrHash1 demoCommitments 2 1 1 0 1
      = some demoCastWitness ∧
    ¬ voteCircuit demoFrHash2 demoFrHash1 demoCastWitness :=
  ⟨rfl, castWitness_unsatisfiable demoFrHash2 demoFrHash1 demoCommitments 2 1
    1 0 1 demoCastWitness rfl⟩

/-! Member generation (cli/vote.js, `generate-member`, lines 111-144). -/

/-- A stored member record (the `name` and `createdAt` strings of the JSON
record are omitted; they play no role in any claim). -/
structure Member where
  nullifier : Fr
  secret : Fr
  commitment : Fr
  index : Nat

/-- The record the CLI `generate-member` command builds and appends
(cli/vote.js, lines 122-137): the two field draws (`F.random()`) are
stored exactly as drawn — the command performs no zero check and no
resampling — together with `commitment = Poseidon2(nullifier, secret)` and
`index` = current member count. -/
def generateMember (poseidon2 : Fr → Fr → Fr) (nullifierDraw secretDraw : Fr)
    (members : List Member) : Member :=
  { nullifier := nullifierDraw
    secret := secretDraw
    commitment := poseidon2 nullifierDraw secretDraw
    index := members.length }

/-- C9: member generation does not reject zero draws.  When the random
draws for nullifier and secret are exactly zero, `generate-member` stores
them unchanged (no resampling, no failure) and publishes the fixed
commitment `Poseidon2(0, 0)` — so the produced record violates
`nullifier ≠ 0` and `secret ≠ 0`. -/
theorem generateMember_keeps_zero_draws (poseidon2 : Fr → Fr → Fr)
    (members : List Member) :
    (generateMember poseidon2 0 0 members).nullifier = 0 ∧
    (generateMember poseidon2 0 0 members).secret = 0 ∧
    (generateMember poseidon2 0 0 members).commitment = poseidon2 0 0 :=
  ⟨rfl, rfl, rfl⟩
